import Mathlib

/-!
Verification of the strategy/decision core of the yen-tracker repository.

Shallow-embedding conventions:
* JavaScript numbers are modelled as exact rationals (`ℚ`).
* `Math.round` is modelled by `jsRound` below (JS rounds half toward positive
  infinity, which is `⌊x + 1/2⌋`).
* Human-readable message strings built with runtime number formatting
  (`toFixed`, `toLocaleString`) are not modelled; every numeric and boolean
  field of each result object is modelled.
* The TypeScript default of `currentMonth` to the wall-clock month is
  environment-dependent and is modelled by passing the month explicitly.
-/

/-- JavaScript `Math.round`: rounds half toward positive infinity. -/
def jsRound (x : ℚ) : ℤ := ⌊x + 1 / 2⌋

/-- The four policy bands (`src/src/types/index.ts`). -/
inductive Band
  | AGGRESSIVE_BUY
  | NORMAL_BUY
  | HOLD
  | REVERSE
deriving DecidableEq

/-- Direction of a conversion (`src/src/types/index.ts`). -/
inductive ConversionDirection
  | GBP_TO_JPY
  | JPY_TO_GBP
deriving DecidableEq

/-- A conversion record (`src/src/types/index.ts`, interface ConversionRecord). -/
structure ConversionRecord where
  id : ℤ
  date : String
  direction : ConversionDirection
  gbp_amount : ℚ
  jpy_amount : ℚ
  exchange_rate : ℚ
  spot_rate : Option ℚ := none
  fee_pct : Option ℚ := none
  provider : Option String := none
  band_at_time : Option String := none
  notes : Option String := none
  created_at : String := ""
deriving DecidableEq

/-- The singleton settings row (`src/src/types/index.ts`, interface Settings). -/
structure Settings where
  id : ℤ := 1
  aggressive_above : ℚ
  normal_above : ℚ
  hold_above : ℚ
  cap_aggressive_gbp : ℚ
  cap_normal_gbp : ℚ
  total_gbp_savings_pence : ℚ
  max_fx_exposure_pct : ℚ
  monthly_jpy_expenses : ℚ
  monthly_jpy_salary_net : ℚ
  nisa_monthly_jpy : ℚ
  nisa_return_pct : ℚ
  circuit_breaker_loss_pence : ℚ
  gbp_safety_net_months : ℚ
  scenario_best_rate : ℚ
  scenario_base_rate : ℚ
  scenario_worst_rate : ℚ
  last_band_review : Option String := none
  review_interval_days : ℚ
  updated_at : String := ""
deriving DecidableEq

/-- Band thresholds (`src/src/lib/strategy/bands.ts`, interface BandThresholds). -/
structure BandThresholds where
  aggressiveAbove : ℚ
  normalAbove : ℚ
  holdAbove : ℚ
deriving DecidableEq

/-- Result of band classification (`src/src/types/index.ts`, interface BandResult). -/
structure BandResult where
  band : Band
  rate : ℚ
  thresholds : BandThresholds
  suggestion : String
deriving DecidableEq

/-- `determineBand` from `src/src/lib/strategy/bands.ts` (lines 9-37): the
descending inclusive cascade over the three thresholds, echoing rate and
thresholds and attaching the fixed per-band suggestion string. -/
def determineBand (rate : ℚ) (thresholds : BandThresholds) : BandResult :=
  if thresholds.aggressiveAbove ≤ rate then
    { band := Band.AGGRESSIVE_BUY, rate := rate, thresholds := thresholds,
      suggestion := "Rate is excellent. Convert up to your aggressive monthly cap." }
  else if thresholds.normalAbove ≤ rate then
    { band := Band.NORMAL_BUY, rate := rate, thresholds := thresholds,
      suggestion := "Rate is favourable. Convert up to your normal monthly cap." }
  else if thresholds.holdAbove ≤ rate then
    { band := Band.HOLD, rate := rate, thresholds := thresholds,
      suggestion := "Rate is below your buy threshold. Hold and wait for improvement." }
  else
    { band := Band.REVERSE, rate := rate, thresholds := thresholds,
      suggestion := "Rate is very low. Consider converting JPY back to GBP if needed." }

/-- Caution ordering of bands: a larger rank is a more aggressive band. -/
def bandRank : Band → ℕ
  | Band.REVERSE => 0
  | Band.HOLD => 1
  | Band.NORMAL_BUY => 2
  | Band.AGGRESSIVE_BUY => 3

lemma determineBand_band (rate : ℚ) (th : BandThresholds) :
    (determineBand rate th).band =
      (if th.aggressiveAbove ≤ rate then Band.AGGRESSIVE_BUY
       else if th.normalAbove ≤ rate then Band.NORMAL_BUY
       else if th.holdAbove ≤ rate then Band.HOLD
       else Band.REVERSE) := by
  unfold determineBand
  split_ifs <;> rfl

/-- C3: with ordered thresholds `holdAbove < normalAbove ≤ aggressiveAbove`,
`determineBand` returns exactly one band, chosen by the descending inclusive
cascade (AGGRESSIVE_BUY iff `r ≥ aggressiveAbove`, else NORMAL_BUY iff
`r ≥ normalAbove`, else HOLD iff `r ≥ holdAbove`, else REVERSE); a rate equal
to a threshold selects the more aggressive adjacent band, and the band is
monotone in the rate. -/
theorem determineBand_cascade_monotone (th : BandThresholds) (r : ℚ)
    (hth : th.holdAbove < th.normalAbove ∧ th.normalAbove ≤ th.aggressiveAbove) :
    ((determineBand r th).band = Band.AGGRESSIVE_BUY ↔ th.aggressiveAbove ≤ r) ∧
    ((determineBand r th).band = Band.NORMAL_BUY ↔ th.normalAbove ≤ r ∧ r < th.aggressiveAbove) ∧
    ((determineBand r th).band = Band.HOLD ↔ th.holdAbove ≤ r ∧ r < th.normalAbove) ∧
    ((determineBand r th).band = Band.REVERSE ↔ r < th.holdAbove) ∧
    (∀ r2 : ℚ, r ≤ r2 →
      bandRank (determineBand r th).band ≤ bandRank (determineBand r2 th).band) := by
  obtain ⟨h1, h2⟩ := hth
  refine ⟨?_, ?_, ?_, ?_, ?_⟩
  · rw [determineBand_band]
    split_ifs with ha hn hh <;> simp <;>
      first | (constructor <;> linarith) | (intro h; linarith) | linarith
  · rw [determineBand_band]
    split_ifs with ha hn hh <;> simp <;>
      first | (constructor <;> linarith) | (intro h; linarith) | linarith
  · rw [determineBand_band]
    split_ifs with ha hn hh <;> simp <;>
      first | (constructor <;> linarith) | (intro h; linarith) | linarith
  · rw [determineBand_band]
    split_ifs with ha hn hh <;> simp <;>
      first | (constructor <;> linarith) | (intro h; linarith) | linarith
  · intro r2 hr
    rw [determineBand_band, determineBand_band]
    split_ifs <;> simp [bandRank] <;> linarith

/-- Witness for C3 at the spec scenario: thresholds 200/190/175 and rate 195
classify as NORMAL_BUY. -/
theorem determineBand_cascade_monotone_witness :
    (determineBand 195 ⟨200, 190, 175⟩).band = Band.NORMAL_BUY :=
  ((determineBand_cascade_monotone ⟨200, 190, 175⟩ 195 (by norm_num)).2.1).2 (by norm_num)

/-- Result of the thermostat computation (`src/src/lib/strategy/thermostat.ts`,
interface ThermostatResult). The `suggestion` string field (runtime-formatted
text) is not modelled; all numeric and boolean fields are. -/
structure ThermostatResult where
  band : Band
  monthlyCap : ℚ
  convertedThisMonth : ℚ
  remainingBudget : ℚ
  suggestedAmount : ℚ
  atCap : Bool
  exposurePct : ℚ
  overExposed : Bool
deriving DecidableEq

/-- `calculateThermostat` from `src/src/lib/strategy/thermostat.ts`
(lines 15-99). The wall-clock default for the month argument is modelled by
an explicit `currentMonth` parameter. -/
def calculateThermostat (band : Band) (settings : Settings)
    (conversions : List ConversionRecord) (currentMonth : String) : ThermostatResult :=
  let month := currentMonth
  let thisMonthConversions := conversions.filter fun c =>
    c.date.startsWith month && decide (c.direction = ConversionDirection.GBP_TO_JPY)
  let convertedThisMonth := thisMonthConversions.foldl (fun sum c => sum + c.gbp_amount) 0
  let monthlyCap : ℚ :=
    match band with
    | Band.AGGRESSIVE_BUY => settings.cap_aggressive_gbp
    | Band.NORMAL_BUY => settings.cap_normal_gbp
    | Band.HOLD => 0
    | Band.REVERSE => 0
  let remainingBudget := max 0 (monthlyCap - convertedThisMonth)
  let totalConverted :=
    (conversions.filter fun c => decide (c.direction = ConversionDirection.GBP_TO_JPY)).foldl
      (fun sum c => sum + c.gbp_amount) 0
  let totalReverted :=
    (conversions.filter fun c => decide (c.direction = ConversionDirection.JPY_TO_GBP)).foldl
      (fun sum c => sum + c.gbp_amount) 0
  let netDeployed := totalConverted - totalReverted
  let maxExposure : ℚ :=
    (jsRound (settings.total_gbp_savings_pence * settings.max_fx_exposure_pct / 100) : ℚ)
  let exposurePct :=
    if 0 < settings.total_gbp_savings_pence then
      netDeployed / settings.total_gbp_savings_pence * 100
    else 0
  let overExposed := decide (maxExposure ≤ netDeployed)
  let exposureRemaining := max 0 (maxExposure - netDeployed)
  let suggestedAmount := min remainingBudget exposureRemaining
  let atCap := decide (remainingBudget = 0)
  { band := band, monthlyCap := monthlyCap, convertedThisMonth := convertedThisMonth,
    remainingBudget := remainingBudget, suggestedAmount := suggestedAmount,
    atCap := atCap, exposurePct := exposurePct, overExposed := overExposed }

/-- The second `calculateThermostat` implementation, from `src/unnamed/part_004`
(lines 4-91). It differs from `src/src/lib/strategy/thermostat.ts` in two
places: `overExposed` uses strict `netDeployed > maxExposure`, and
`atCap` is `monthlyCap > 0 && remainingBudget === 0`. -/
def calculateThermostatAlt (band : Band) (settings : Settings)
    (conversions : List ConversionRecord) (currentMonth : String) : ThermostatResult :=
  let month := currentMonth
  let thisMonthConversions := conversions.filter fun c =>
    c.date.startsWith month && decide (c.direction = ConversionDirection.GBP_TO_JPY)
  let convertedThisMonth := thisMonthConversions.foldl (fun sum c => sum + c.gbp_amount) 0
  let monthlyCap : ℚ :=
    match band with
    | Band.AGGRESSIVE_BUY => settings.cap_aggressive_gbp
    | Band.NORMAL_BUY => settings.cap_normal_gbp
    | Band.HOLD => 0
    | Band.REVERSE => 0
  let remainingBudget := max 0 (monthlyCap - convertedThisMonth)
  let totalConverted :=
    (conversions.filter fun c => decide (c.direction = ConversionDirection.GBP_TO_JPY)).foldl
      (fun sum c => sum + c.gbp_amount) 0
  let totalReverted :=
    (conversions.filter fun c => decide (c.direction = ConversionDirection.JPY_TO_GBP)).foldl
      (fun sum c => sum + c.gbp_amount) 0
  let netDeployed := totalConverted - totalReverted
  let maxExposure : ℚ :=
    (jsRound (settings.total_gbp_savings_pence * settings.max_fx_exposure_pct / 100) : ℚ)
  let exposurePct :=
    if 0 < settings.total_gbp_savings_pence then
      netDeployed / settings.total_gbp_savings_pence * 100
    else 0
  let overExposed := decide (maxExposure < netDeployed)
  let exposureRemaining := max 0 (maxExposure - netDeployed)
  let suggestedAmount := min remainingBudget exposureRemaining
  let atCap := decide (0 < monthlyCap) && decide (remainingBudget = 0)
  { band := band, monthlyCap := monthlyCap, convertedThisMonth := convertedThisMonth,
    remainingBudget := remainingBudget, suggestedAmount := suggestedAmount,
    atCap := atCap, exposurePct := exposurePct, overExposed := overExposed }

/-- C1: over the full (not month-filtered) record set, `overExposed` is true
exactly when `netDeployed ≥ maxExposure`, with
`netDeployed = Σ(GBP_TO_JPY gbp) − Σ(JPY_TO_GBP gbp)` and
`maxExposure = round(total_gbp_savings_pence × max_fx_exposure_pct / 100)`;
the boundary is inclusive. -/
theorem calculateThermostat_overExposed_iff (band : Band) (s : Settings)
    (conversions : List ConversionRecord) (month : String) :
    (calculateThermostat band s conversions month).overExposed = true ↔
      (jsRound (s.total_gbp_savings_pence * s.max_fx_exposure_pct / 100) : ℚ) ≤
        (conversions.filter fun c => decide (c.direction = ConversionDirection.GBP_TO_JPY)).foldl
            (fun sum c => sum + c.gbp_amount) 0 -
          (conversions.filter fun c => decide (c.direction = ConversionDirection.JPY_TO_GBP)).foldl
            (fun sum c => sum + c.gbp_amount) 0 := by
  simp [calculateThermostat]

lemma foldl_add_gbp_nonneg (l : List ConversionRecord) (a : ℚ) (ha : 0 ≤ a)
    (h : ∀ c ∈ l, 0 ≤ c.gbp_amount) :
    0 ≤ l.foldl (fun sum c => sum + c.gbp_amount) a := by
  induction l generalizing a with
  | nil => simpa using ha
  | cons c t ih =>
    simp only [List.foldl_cons]
    exact ih (a + c.gbp_amount)
      (by have := h c (by simp); linarith)
      (fun d hd => h d (by simp [hd]))

/-- C7: the suggested amount never exceeds the remaining monthly budget nor
the remaining exposure headroom (it is the minimum of the two, both clamped
at 0), and the HOLD and REVERSE bands force `monthlyCap = 0` and
`suggestedAmount = 0` (given the data-model invariant that GBP amounts are
non-negative). -/
theorem calculateThermostat_suggested_bounds (band : Band) (s : Settings)
    (conversions : List ConversionRecord) (month : String)
    (hpos : ∀ c ∈ conversions, 0 ≤ c.gbp_amount) :
    (calculateThermostat band s conversions month).suggestedAmount ≤
        (calculateThermostat band s conversions month).remainingBudget ∧
    (calculateThermostat band s conversions month).suggestedAmount ≤
        max 0 ((jsRound (s.total_gbp_savings_pence * s.max_fx_exposure_pct / 100) : ℚ) -
          ((conversions.filter fun c =>
              decide (c.direction = ConversionDirection.GBP_TO_JPY)).foldl
              (fun sum c => sum + c.gbp_amount) 0 -
            (conversions.filter fun c =>
              decide (c.direction = ConversionDirection.JPY_TO_GBP)).foldl
              (fun sum c => sum + c.gbp_amount) 0)) ∧
    0 ≤ (calculateThermostat band s conversions month).remainingBudget ∧
    ((band = Band.HOLD ∨ band = Band.REVERSE) →
      (calculateThermostat band s conversions month).monthlyCap = 0 ∧
      (calculateThermostat band s conversions month).suggestedAmount = 0) := by
  refine ⟨?_, ?_, ?_, ?_⟩
  · simp only [calculateThermostat]
    exact min_le_left _ _
  · simp only [calculateThermostat]
    exact min_le_right _ _
  · simp only [calculateThermostat]
    exact le_max_left _ _
  · intro hband
    have hconv : 0 ≤ (conversions.filter fun c =>
        c.date.startsWith month &&
          decide (c.direction = ConversionDirection.GBP_TO_JPY)).foldl
        (fun sum c => sum + c.gbp_amount) 0 :=
      foldl_add_gbp_nonneg _ 0 le_rfl
        (fun c hc => hpos c (List.mem_of_mem_filter hc))
    rcases hband with h | h <;> subst h <;>
      simp only [calculateThermostat] <;>
      constructor <;>
      first
        | trivial
        | rw [zero_sub, max_eq_left (by linarith), min_eq_left (le_max_left _ _)]

/-- Witness for C7: HOLD band with a single positive conversion yields zero
cap and zero suggestion. -/
theorem calculateThermostat_suggested_bounds_witness :
    (calculateThermostat Band.HOLD
      { aggressive_above := 200, normal_above := 190, hold_above := 175,
        cap_aggressive_gbp := 200000, cap_normal_gbp := 100000,
        total_gbp_savings_pence := 5000000, max_fx_exposure_pct := 80,
        monthly_jpy_expenses := 250000, monthly_jpy_salary_net := 300000,
        nisa_monthly_jpy := 100000, nisa_return_pct := 5,
        circuit_breaker_loss_pence := 500000, gbp_safety_net_months := 6,
        scenario_best_rate := 210, scenario_base_rate := 190,
        scenario_worst_rate := 170, review_interval_days := 90 }
      [{ id := 1, date := "2024-01-15", direction := ConversionDirection.GBP_TO_JPY,
         gbp_amount := 100000, jpy_amount := 190000, exchange_rate := 190 }]
      "2024-01").suggestedAmount = 0 :=
  ((calculateThermostat_suggested_bounds Band.HOLD _ _ "2024-01"
    (by intro c hc; simp at hc; subst hc; norm_num)).2.2.2 (Or.inl rfl)).2

/-- Settings used by the repository's own unit tests (mockSettings in the
thermostat test file). -/
def mockSettings : Settings :=
  { aggressive_above := 200, normal_above := 190, hold_above := 175,
    cap_aggressive_gbp := 200000, cap_normal_gbp := 100000,
    total_gbp_savings_pence := 5000000, max_fx_exposure_pct := 80,
    monthly_jpy_expenses := 250000, monthly_jpy_salary_net := 300000,
    nisa_monthly_jpy := 100000, nisa_return_pct := 5,
    circuit_breaker_loss_pence := 500000, gbp_safety_net_months := 6,
    scenario_best_rate := 210, scenario_base_rate := 190,
    scenario_worst_rate := 170, review_interval_days := 90 }

/-- Counterexample for C2: at netDeployed = maxExposure (a single GBP_TO_JPY
conversion of 4000000 pence against an exposure cap of 4000000 pence) the two
implementations disagree on `overExposed` (inclusive vs strict comparison). -/
theorem thermostat_impls_differ :
    (calculateThermostat Band.AGGRESSIVE_BUY mockSettings
      [{ id := 1, date := "2024-01-01", direction := ConversionDirection.GBP_TO_JPY,
         gbp_amount := 4000000, jpy_amount := 7600000, exchange_rate := 190 }]
      "2024-02").overExposed ≠
    (calculateThermostatAlt Band.AGGRESSIVE_BUY mockSettings
      [{ id := 1, date := "2024-01-01", direction := ConversionDirection.GBP_TO_JPY,
         gbp_amount := 4000000, jpy_amount := 7600000, exchange_rate := 190 }]
      "2024-02").overExposed := by
  simp only [calculateThermostat, calculateThermostatAlt, mockSettings]
  norm_num [jsRound, List.filter, List.foldl]

lemma decide_le_eq_decide_lt_iff (a b : ℚ) :
    (decide (a ≤ b) = decide (a < b)) ↔ ¬ b = a := by
  by_cases h : b = a
  · subst h; simp
  · have hiff : (a ≤ b) ↔ (a < b) :=
      ⟨fun hle => lt_of_le_of_ne hle (fun hh => h hh.symm), le_of_lt⟩
    simp [decide_eq_decide, hiff, h]

lemma decide_atCap_eq_iff (cap rb : ℚ) :
    (decide (rb = 0) = (decide (0 < cap) && decide (rb = 0))) ↔ ¬ (rb = 0 ∧ cap ≤ 0) := by
  by_cases hrb : rb = 0 <;> by_cases hcap : 0 < cap <;>
    simp [hrb, hcap, not_le] <;> first | linarith | exact fun hh => absurd hh (not_lt.mpr le_rfl)

/-- C2 (amended): the two `calculateThermostat` implementations agree on the
`band`, `monthlyCap`, `convertedThisMonth`, `remainingBudget`,
`suggestedAmount` and `exposurePct` fields for every input, but their
`overExposed` fields agree exactly when `netDeployed ≠ maxExposure`, and their
`atCap` fields agree exactly when not (`remainingBudget = 0` with a
non-positive `monthlyCap`). -/
theorem thermostat_impls_agree_except (band : Band) (s : Settings)
    (conversions : List ConversionRecord) (month : String) :
    (calculateThermostat band s conversions month).band =
        (calculateThermostatAlt band s conversions month).band ∧
    (calculateThermostat band s conversions month).monthlyCap =
        (calculateThermostatAlt band s conversions month).monthlyCap ∧
    (calculateThermostat band s conversions month).convertedThisMonth =
        (calculateThermostatAlt band s conversions month).convertedThisMonth ∧
    (calculateThermostat band s conversions month).remainingBudget =
        (calculateThermostatAlt band s conversions month).remainingBudget ∧
    (calculateThermostat band s conversions month).suggestedAmount =
        (calculateThermostatAlt band s conversions month).suggestedAmount ∧
    (calculateThermostat band s conversions month).exposurePct =
        (calculateThermostatAlt band s conversions month).exposurePct ∧
    ((calculateThermostat band s conversions month).overExposed =
        (calculateThermostatAlt band s conversions month).overExposed ↔
      ¬ ((conversions.filter fun c =>
            decide (c.direction = ConversionDirection.GBP_TO_JPY)).foldl
            (fun sum c => sum + c.gbp_amount) 0 -
          (conversions.filter fun c =>
            decide (c.direction = ConversionDirection.JPY_TO_GBP)).foldl
            (fun sum c => sum + c.gbp_amount) 0 =
        (jsRound (s.total_gbp_savings_pence * s.max_fx_exposure_pct / 100) : ℚ))) ∧
    ((calculateThermostat band s conversions month).atCap =
        (calculateThermostatAlt band s conversions month).atCap ↔
      ¬ ((calculateThermostat band s conversions month).remainingBudget = 0 ∧
          (calculateThermostat band s conversions month).monthlyCap ≤ 0)) := by
  refine ⟨rfl, rfl, rfl, rfl, rfl, rfl, ?_, ?_⟩
  · simp only [calculateThermostat, calculateThermostatAlt]
    exact decide_le_eq_decide_lt_iff _ _
  · simp only [calculateThermostat, calculateThermostatAlt]
    exact decide_atCap_eq_iff _ _

/-- Portfolio summary (`src/src/types/index.ts`, interface PortfolioSummary). -/
structure PortfolioSummary where
  totalGbpConverted : ℚ
  netGbpDeployed : ℚ
  totalJpyAcquired : ℚ
  weightedAvgRate : ℚ
  currentRate : ℚ
  currentValueGbp : ℚ
  unrealisedPnlGbp : ℚ
  unrealisedPnlPct : ℚ
  conversionCount : ℕ
deriving DecidableEq

/-- `calculateWeightedAvgRate` from the finance pnl module: GBP-amount-weighted
mean of the exchange rates of GBP_TO_JPY records, 0 when there are none or
their GBP total is 0. The source accumulates both sums in one pass; the two
folds below compute the same two sums. -/
def calculateWeightedAvgRate (conversions : List ConversionRecord) : ℚ :=
  let gbpToJpy := conversions.filter fun c =>
    decide (c.direction = ConversionDirection.GBP_TO_JPY)
  if gbpToJpy.isEmpty then 0
  else
    let totalWeightedRate :=
      gbpToJpy.foldl (fun sum c => sum + c.exchange_rate * c.gbp_amount) 0
    let totalGbpAmount := gbpToJpy.foldl (fun sum c => sum + c.gbp_amount) 0
    if totalGbpAmount = 0 then 0 else totalWeightedRate / totalGbpAmount

/-- `calculatePortfolioSummary` from the finance pnl module: folds the
conversion list into net positions and unrealised P&L at the given rate. -/
def calculatePortfolioSummary (conversions : List ConversionRecord)
    (currentRate : ℚ) : PortfolioSummary :=
  let gbpToJpy := conversions.filter fun c =>
    decide (c.direction = ConversionDirection.GBP_TO_JPY)
  let jpyToGbp := conversions.filter fun c =>
    decide (c.direction = ConversionDirection.JPY_TO_GBP)
  let totalGbpConverted := gbpToJpy.foldl (fun sum c => sum + c.gbp_amount) 0
  let gbpReceived := jpyToGbp.foldl (fun sum c => sum + c.gbp_amount) 0
  let netGbpDeployed := totalGbpConverted - gbpReceived
  let jpyAcquired := gbpToJpy.foldl (fun sum c => sum + c.jpy_amount) 0
  let jpyReturned := jpyToGbp.foldl (fun sum c => sum + c.jpy_amount) 0
  let totalJpyAcquired := jpyAcquired - jpyReturned
  let weightedAvgRate := calculateWeightedAvgRate conversions
  let currentValueGbp : ℚ :=
    if 0 < currentRate then (jsRound (totalJpyAcquired / currentRate * 100) : ℚ) else 0
  let unrealisedPnlGbp := currentValueGbp - netGbpDeployed
  let unrealisedPnlPct :=
    if 0 < netGbpDeployed then unrealisedPnlGbp / netGbpDeployed * 100 else 0
  { totalGbpConverted := totalGbpConverted, netGbpDeployed := netGbpDeployed,
    totalJpyAcquired := totalJpyAcquired, weightedAvgRate := weightedAvgRate,
    currentRate := currentRate, currentValueGbp := currentValueGbp,
    unrealisedPnlGbp := unrealisedPnlGbp, unrealisedPnlPct := unrealisedPnlPct,
    conversionCount := conversions.length }

/-- Counterexample for C4: on the empty conversion list with current rate 200,
the returned object's `currentRate` field (a numeric field, echoing the input)
is 200, not 0, so not every numeric field of the result is 0. -/
theorem calculatePortfolioSummary_empty_currentRate_nonzero :
    (calculatePortfolioSummary [] 200).currentRate ≠ 0 := by
  norm_num [calculatePortfolioSummary]

/-- C4 (amended): `unrealisedPnlGbp = currentValueGbp − netGbpDeployed` holds
exactly for every input, and for the empty conversion list every numeric field
of the result is 0 except `currentRate`, which echoes the input rate. -/
theorem calculatePortfolioSummary_identity_empty (cs : List ConversionRecord) (rate : ℚ) :
    ((calculatePortfolioSummary cs rate).unrealisedPnlGbp =
      (calculatePortfolioSummary cs rate).currentValueGbp -
        (calculatePortfolioSummary cs rate).netGbpDeployed) ∧
    (cs = [] →
      calculatePortfolioSummary cs rate =
        { totalGbpConverted := 0, netGbpDeployed := 0, totalJpyAcquired := 0,
          weightedAvgRate := 0, currentRate := rate, currentValueGbp := 0,
          unrealisedPnlGbp := 0, unrealisedPnlPct := 0, conversionCount := 0 }) := by
  constructor
  · rfl
  · rintro rfl
    simp only [calculatePortfolioSummary, calculateWeightedAvgRate, List.filter_nil,
      List.foldl_nil, List.isEmpty_nil, List.length_nil, if_true]
    split_ifs with h <;> norm_num [jsRound]

/-- Witness for C4 (amended) at the empty list and rate 200. -/
theorem calculatePortfolioSummary_empty_witness :
    calculatePortfolioSummary [] 200 =
      { totalGbpConverted := 0, netGbpDeployed := 0, totalJpyAcquired := 0,
        weightedAvgRate := 0, currentRate := 200, currentValueGbp := 0,
        unrealisedPnlGbp := 0, unrealisedPnlPct := 0, conversionCount := 0 } :=
  (calculatePortfolioSummary_identity_empty [] 200).2 rfl

/-- Circuit breaker verdict (`src/src/lib/strategy/circuit-breaker.ts`,
interface CircuitBreakerResult). The runtime-formatted `message` string is
not modelled; all numeric and boolean fields are. -/
structure CircuitBreakerResult where
  triggered : Bool
  currentLoss : ℚ
  threshold : ℚ
  lossPct : ℚ
deriving DecidableEq

/-- `checkCircuitBreaker` from `src/src/lib/strategy/circuit-breaker.ts`
(lines 18-56). -/
def checkCircuitBreaker (conversions : List ConversionRecord) (currentRate : ℚ)
    (settings : Settings) : CircuitBreakerResult :=
  let gbpToJpy := conversions.filter fun c =>
    decide (c.direction = ConversionDirection.GBP_TO_JPY)
  let jpyToGbp := conversions.filter fun c =>
    decide (c.direction = ConversionDirection.JPY_TO_GBP)
  let totalGbpOut := gbpToJpy.foldl (fun sum c => sum + c.gbp_amount) 0
  let totalGbpBack := jpyToGbp.foldl (fun sum c => sum + c.gbp_amount) 0
  let netDeployed := totalGbpOut - totalGbpBack
  let jpyHeld :=
    gbpToJpy.foldl (fun sum c => sum + c.jpy_amount) 0 -
      jpyToGbp.foldl (fun sum c => sum + c.jpy_amount) 0
  let currentValuePence : ℚ :=
    if 0 < currentRate then (jsRound (jpyHeld / currentRate * 100) : ℚ) else 0
  let loss := currentValuePence - netDeployed
  let lossPct := if 0 < netDeployed then loss / netDeployed * 100 else 0
  let threshold := settings.circuit_breaker_loss_pence
  let triggered := decide (loss < 0) && decide (threshold ≤ |loss|)
  { triggered := triggered, currentLoss := loss, threshold := threshold,
    lossPct := lossPct }

/-- C5: `triggered` is true iff `loss < 0` and `|loss| ≥ circuit_breaker_loss_pence`,
where `loss = currentValuePence − netDeployed` and `currentValuePence` is
`round(jpyHeld / currentRate × 100)` for a positive rate and 0 otherwise. -/
theorem checkCircuitBreaker_triggered_iff (cs : List ConversionRecord) (rate : ℚ)
    (s : Settings) :
    ((checkCircuitBreaker cs rate s).triggered = true ↔
      ((checkCircuitBreaker cs rate s).currentLoss < 0 ∧
        s.circuit_breaker_loss_pence ≤ |(checkCircuitBreaker cs rate s).currentLoss|)) ∧
    (checkCircuitBreaker cs rate s).currentLoss =
      (if 0 < rate then
        (jsRound
          (((cs.filter fun c => decide (c.direction = ConversionDirection.GBP_TO_JPY)).foldl
              (fun sum c => sum + c.jpy_amount) 0 -
            (cs.filter fun c => decide (c.direction = ConversionDirection.JPY_TO_GBP)).foldl
              (fun sum c => sum + c.jpy_amount) 0) / rate * 100) : ℚ)
      else 0) -
      ((cs.filter fun c => decide (c.direction = ConversionDirection.GBP_TO_JPY)).foldl
          (fun sum c => sum + c.gbp_amount) 0 -
        (cs.filter fun c => decide (c.direction = ConversionDirection.JPY_TO_GBP)).foldl
          (fun sum c => sum + c.gbp_amount) 0) := by
  constructor
  · simp [checkCircuitBreaker]
  · rfl

/-- C6: a zero current rate forces `currentValuePence` to 0, so the loss is
the full `netDeployed`; with positive net deployment at or above the
threshold, the breaker triggers. The embedded function is total: no exception
is possible. -/
theorem checkCircuitBreaker_zero_rate (cs : List ConversionRecord) (s : Settings)
    (net : ℚ)
    (hnet : net =
      (cs.filter fun c => decide (c.direction = ConversionDirection.GBP_TO_JPY)).foldl
          (fun sum c => sum + c.gbp_amount) 0 -
        (cs.filter fun c => decide (c.direction = ConversionDirection.JPY_TO_GBP)).foldl
          (fun sum c => sum + c.gbp_amount) 0)
    (hpos : 0 < net) (hthr : s.circuit_breaker_loss_pence ≤ net) :
    (checkCircuitBreaker cs 0 s).currentLoss = -net ∧
    (checkCircuitBreaker cs 0 s).triggered = true := by
  subst hnet
  constructor
  · simp [checkCircuitBreaker]
  · simp only [checkCircuitBreaker, lt_irrefl, if_false, zero_sub, Bool.and_eq_true,
      decide_eq_true_eq]
    exact ⟨by linarith, by rw [abs_neg, abs_of_pos hpos]; exact hthr⟩

/-- Witness for C6: one GBP_TO_JPY conversion of 100000 pence, rate 0, and a
1000-pence threshold trigger the breaker. -/
theorem checkCircuitBreaker_zero_rate_witness :
    (checkCircuitBreaker
      [{ id := 1, date := "2024-01-01", direction := ConversionDirection.GBP_TO_JPY,
         gbp_amount := 100000, jpy_amount := 190000, exchange_rate := 190 }] 0
      { mockSettings with circuit_breaker_loss_pence := 1000 }).triggered = true :=
  (checkCircuitBreaker_zero_rate _ _ 100000
    (by norm_num [List.filter, List.foldl]) (by norm_num)
    (by norm_num [mockSettings])).2

/-- One rate observation (`src/src/lib/rates/history.ts`, interface
RateHistoryPoint). -/
structure RateHistoryPoint where
  date : String
  rate : ℚ
deriving DecidableEq

/-- 52-week range result (`src/src/lib/rates/history.ts`, interface RateRange). -/
structure RateRange where
  high : ℚ
  low : ℚ
  highDate : String
  lowDate : String
  current : ℚ
  percentile : ℚ
deriving DecidableEq

/-- The mutable loop state of the scan in `calculate52WeekRange`. -/
structure RangeAcc where
  high : ℚ
  low : ℚ
  highDate : String
  lowDate : String
deriving DecidableEq

/-- One iteration of the for-loop in `calculate52WeekRange` (lines 49-58):
two independent strictly-compared updates. -/
def range52Step (acc : RangeAcc) (point : RateHistoryPoint) : RangeAcc :=
  let acc1 :=
    if acc.high < point.rate then
      { acc with high := point.rate, highDate := point.date }
    else acc
  if point.rate < acc1.low then
    { acc1 with low := point.rate, lowDate := point.date }
  else acc1

/-- `calculate52WeekRange` from `src/src/lib/rates/history.ts` (lines 41-64):
initialises the extrema from the first point, scans the whole list, and
computes the percentile with the zero-range fallback of 50. -/
def calculate52WeekRange (history : List RateHistoryPoint)
    (currentRate : ℚ) : Option RateRange :=
  match history with
  | [] => none
  | p0 :: rest =>
    let acc := (p0 :: rest).foldl range52Step
      { high := p0.rate, low := p0.rate, highDate := p0.date, lowDate := p0.date }
    let range := acc.high - acc.low
    let percentile := if 0 < range then (currentRate - acc.low) / range * 100 else 50
    some { high := acc.high, low := acc.low, highDate := acc.highDate,
           lowDate := acc.lowDate, current := currentRate, percentile := percentile }

lemma range52Step_high (acc : RangeAcc) (p : RateHistoryPoint) :
    (range52Step acc p).high = max acc.high p.rate := by
  simp only [range52Step]
  split_ifs with h1 h2 <;>
    first
      | exact (max_eq_right h1.le).symm
      | exact (max_eq_left (not_lt.mp h1)).symm

lemma range52Step_low (acc : RangeAcc) (p : RateHistoryPoint) :
    (range52Step acc p).low = min acc.low p.rate := by
  simp only [range52Step]
  split_ifs with h1 h2 h3
  · exact (min_eq_right h2.le).symm
  · exact (min_eq_left (not_lt.mp h2)).symm
  · exact (min_eq_right h3.le).symm
  · exact (min_eq_left (not_lt.mp h3)).symm

lemma range52Step_highDate (acc : RangeAcc) (p : RateHistoryPoint) :
    (range52Step acc p).highDate = if acc.high < p.rate then p.date else acc.highDate := by
  simp only [range52Step]
  split_ifs <;> rfl

lemma range52Step_lowDate (acc : RangeAcc) (p : RateHistoryPoint) :
    (range52Step acc p).lowDate = if p.rate < acc.low then p.date else acc.lowDate := by
  simp only [range52Step]
  split_ifs <;> rfl

lemma foldl_range52_high (l : List RateHistoryPoint) (acc : RangeAcc) :
    (l.foldl range52Step acc).high = l.foldl (fun x p => max x p.rate) acc.high := by
  induction l generalizing acc with
  | nil => rfl
  | cons p t ih => simp only [List.foldl_cons]; rw [ih, range52Step_high]

lemma foldl_range52_low (l : List RateHistoryPoint) (acc : RangeAcc) :
    (l.foldl range52Step acc).low = l.foldl (fun x p => min x p.rate) acc.low := by
  induction l generalizing acc with
  | nil => rfl
  | cons p t ih => simp only [List.foldl_cons]; rw [ih, range52Step_low]

lemma le_foldl_max (l : List RateHistoryPoint) (a : ℚ) :
    a ≤ l.foldl (fun x p => max x p.rate) a := by
  induction l generalizing a with
  | nil => exact le_rfl
  | cons p t ih => exact le_trans (le_max_left a p.rate) (ih _)

lemma rate_le_foldl_max (l : List RateHistoryPoint) (a : ℚ) :
    ∀ q ∈ l, q.rate ≤ l.foldl (fun x p => max x p.rate) a := by
  induction l generalizing a with
  | nil => simp
  | cons p t ih =>
    intro q hq
    rcases List.mem_cons.mp hq with h | h
    · subst h
      exact le_trans (le_max_right a q.rate) (le_foldl_max t _)
    · exact ih _ q h

lemma foldl_min_le (l : List RateHistoryPoint) (a : ℚ) :
    l.foldl (fun x p => min x p.rate) a ≤ a := by
  induction l generalizing a with
  | nil => exact le_rfl
  | cons p t ih => exact le_trans (ih _) (min_le_left a p.rate)

lemma foldl_min_le_rate (l : List RateHistoryPoint) (a : ℚ) :
    ∀ q ∈ l, l.foldl (fun x p => min x p.rate) a ≤ q.rate := by
  induction l generalizing a with
  | nil => simp
  | cons p t ih =>
    intro q hq
    rcases List.mem_cons.mp hq with h | h
    · subst h
      exact le_trans (foldl_min_le t _) (min_le_right a q.rate)
    · exact ih _ q h

lemma range52_high_first (l : List RateHistoryPoint) (acc : RangeAcc) :
    ((l.foldl range52Step acc).high = acc.high ∧
      (l.foldl range52Step acc).highDate = acc.highDate ∧
      ∀ p ∈ l, p.rate ≤ acc.high) ∨
    (acc.high < (l.foldl range52Step acc).high ∧
      ∃ l1 p l2, l = l1 ++ p :: l2 ∧ p.rate = (l.foldl range52Step acc).high ∧
        p.date = (l.foldl range52Step acc).highDate ∧
        ∀ q ∈ l1, q.rate < (l.foldl range52Step acc).high) := by
  induction l generalizing acc with
  | nil => exact Or.inl ⟨rfl, rfl, by simp⟩
  | cons a t ih =>
    simp only [List.foldl_cons]
    by_cases hcase : acc.high < a.rate
    · have hstep_h : (range52Step acc a).high = a.rate := by
        rw [range52Step_high, max_eq_right hcase.le]
      have hstep_d : (range52Step acc a).highDate = a.date := by
        rw [range52Step_highDate, if_pos hcase]
      rcases ih (range52Step acc a) with ⟨hh, hd, hb⟩ | ⟨hlt, l1, p, l2, heq, hr, hdate, hfirst⟩
      · refine Or.inr ⟨?_, [], a, t, rfl, ?_, ?_, by simp⟩
        · rw [hh, hstep_h]; exact hcase
        · rw [hh, hstep_h]
        · rw [hd, hstep_d]
      · refine Or.inr ⟨?_, a :: l1, p, l2, by rw [heq, List.cons_append], hr, hdate, ?_⟩
        · rw [hstep_h] at hlt
          exact lt_trans hcase hlt
        · intro q hq
          rcases List.mem_cons.mp hq with h | h
          · subst h
            rw [hstep_h] at hlt
            exact hlt
          · exact hfirst q h
    · have hstep_h : (range52Step acc a).high = acc.high := by
        rw [range52Step_high, max_eq_left (not_lt.mp hcase)]
      have hstep_d : (range52Step acc a).highDate = acc.highDate := by
        rw [range52Step_highDate, if_neg hcase]
      rcases ih (range52Step acc a) with ⟨hh, hd, hb⟩ | ⟨hlt, l1, p, l2, heq, hr, hdate, hfirst⟩
      · refine Or.inl ⟨?_, ?_, ?_⟩
        · rw [hh, hstep_h]
        · rw [hd, hstep_d]
        · intro p hp
          rcases List.mem_cons.mp hp with h | h
          · subst h; exact not_lt.mp hcase
          · have hbp := hb p h
            rw [hstep_h] at hbp
            exact hbp
      · refine Or.inr ⟨?_, a :: l1, p, l2, by rw [heq, List.cons_append], hr, hdate, ?_⟩
        · rw [hstep_h] at hlt
          exact hlt
        · intro q hq
          rcases List.mem_cons.mp hq with h | h
          · subst h
            rw [hstep_h] at hlt
            exact lt_of_le_of_lt (not_lt.mp hcase) hlt
          · exact hfirst q h

lemma range52_low_first (l : List RateHistoryPoint) (acc : RangeAcc) :
    ((l.foldl range52Step acc).low = acc.low ∧
      (l.foldl range52Step acc).lowDate = acc.lowDate ∧
      ∀ p ∈ l, acc.low ≤ p.rate) ∨
    ((l.foldl range52Step acc).low < acc.low ∧
      ∃ l1 p l2, l = l1 ++ p :: l2 ∧ p.rate = (l.foldl range52Step acc).low ∧
        p.date = (l.foldl range52Step acc).lowDate ∧
        ∀ q ∈ l1, (l.foldl range52Step acc).low < q.rate) := by
  induction l generalizing acc with
  | nil => exact Or.inl ⟨rfl, rfl, by simp⟩
  | cons a t ih =>
    simp only [List.foldl_cons]
    by_cases hcase : a.rate < acc.low
    · have hstep_l : (range52Step acc a).low = a.rate := by
        rw [range52Step_low, min_eq_right hcase.le]
      have hstep_d : (range52Step acc a).lowDate = a.date := by
        rw [range52Step_lowDate, if_pos hcase]
      rcases ih (range52Step acc a) with ⟨hh, hd, hb⟩ | ⟨hlt, l1, p, l2, heq, hr, hdate, hfirst⟩
      · refine Or.inr ⟨?_, [], a, t, rfl, ?_, ?_, by simp⟩
        · rw [hh, hstep_l]; exact hcase
        · rw [hh, hstep_l]
        · rw [hd, hstep_d]
      · refine Or.inr ⟨?_, a :: l1, p, l2, by rw [heq, List.cons_append], hr, hdate, ?_⟩
        · rw [hstep_l] at hlt
          exact lt_trans hlt hcase
        · intro q hq
          rcases List.mem_cons.mp hq with h | h
          · subst h
            rw [hstep_l] at hlt
            exact hlt
          · exact hfirst q h
    · have hstep_l : (range52Step acc a).low = acc.low := by
        rw [range52Step_low, min_eq_left (not_lt.mp hcase)]
      have hstep_d : (range52Step acc a).lowDate = acc.lowDate := by
        rw [range52Step_lowDate, if_neg hcase]
      rcases ih (range52Step acc a) with ⟨hh, hd, hb⟩ | ⟨hlt, l1, p, l2, heq, hr, hdate, hfirst⟩
      · refine Or.inl ⟨?_, ?_, ?_⟩
        · rw [hh, hstep_l]
        · rw [hd, hstep_d]
        · intro p hp
          rcases List.mem_cons.mp hp with h | h
          · subst h; exact not_lt.mp hcase
          · have hbp := hb p h
            rw [hstep_l] at hbp
            exact hbp
      · refine Or.inr ⟨?_, a :: l1, p, l2, by rw [heq, List.cons_append], hr, hdate, ?_⟩
        · rw [hstep_l] at hlt
          exact hlt
        · intro q hq
          rcases List.mem_cons.mp hq with h | h
          · subst h
            rw [hstep_l] at hlt
            exact lt_of_lt_of_le hlt (not_lt.mp hcase)
          · exact hfirst q h

lemma calculate52WeekRange_cons (p0 : RateHistoryPoint) (rest : List RateHistoryPoint)
    (cur : ℚ) :
    calculate52WeekRange (p0 :: rest) cur =
      some { high := ((p0 :: rest).foldl range52Step ⟨p0.rate, p0.rate, p0.date, p0.date⟩).high,
             low := ((p0 :: rest).foldl range52Step ⟨p0.rate, p0.rate, p0.date, p0.date⟩).low,
             highDate :=
               ((p0 :: rest).foldl range52Step ⟨p0.rate, p0.rate, p0.date, p0.date⟩).highDate,
             lowDate :=
               ((p0 :: rest).foldl range52Step ⟨p0.rate, p0.rate, p0.date, p0.date⟩).lowDate,
             current := cur,
             percentile :=
               if 0 < ((p0 :: rest).foldl range52Step ⟨p0.rate, p0.rate, p0.date, p0.date⟩).high -
                   ((p0 :: rest).foldl range52Step ⟨p0.rate, p0.rate, p0.date, p0.date⟩).low then
                 (cur - ((p0 :: rest).foldl range52Step ⟨p0.rate, p0.rate, p0.date, p0.date⟩).low) /
                   (((p0 :: rest).foldl range52Step ⟨p0.rate, p0.rate, p0.date, p0.date⟩).high -
                     ((p0 :: rest).foldl range52Step ⟨p0.rate, p0.rate, p0.date, p0.date⟩).low) * 100
               else 50 } := rfl

/-- C8: for a non-empty history the scan returns `high` equal to the maximum
rate and `low` equal to the minimum rate (so `low ≤ every rate ≤ high`), and
`highDate`/`lowDate` are the dates of the FIRST occurrence of those extremes:
every strictly earlier point has a strictly smaller (resp. larger) rate, so
later equal points never overwrite the recorded date. -/
theorem calculate52WeekRange_extremes (history : List RateHistoryPoint)
    (currentRate : ℚ) (hne : history ≠ []) :
    ∃ rr, calculate52WeekRange history currentRate = some rr ∧
      (∀ q ∈ history, rr.low ≤ q.rate ∧ q.rate ≤ rr.high) ∧
      (∃ l1 p l2, history = l1 ++ p :: l2 ∧ p.rate = rr.high ∧ p.date = rr.highDate ∧
        ∀ q ∈ l1, q.rate < rr.high) ∧
      (∃ l1 p l2, history = l1 ++ p :: l2 ∧ p.rate = rr.low ∧ p.date = rr.lowDate ∧
        ∀ q ∈ l1, rr.low < q.rate) := by
  cases history with
  | nil => exact absurd rfl hne
  | cons p0 rest =>
    rw [calculate52WeekRange_cons]
    refine ⟨_, rfl, ?_, ?_, ?_⟩
    · intro q hq
      constructor
      · show ((p0 :: rest).foldl range52Step ⟨p0.rate, p0.rate, p0.date, p0.date⟩).low ≤ q.rate
        rw [foldl_range52_low]
        exact foldl_min_le_rate _ _ q hq
      · show q.rate ≤ ((p0 :: rest).foldl range52Step ⟨p0.rate, p0.rate, p0.date, p0.date⟩).high
        rw [foldl_range52_high]
        exact rate_le_foldl_max _ _ q hq
    · rcases range52_high_first (p0 :: rest) ⟨p0.rate, p0.rate, p0.date, p0.date⟩ with
        ⟨hh, hd, hb⟩ | ⟨hlt, l1, p, l2, heq, hr, hdate, hfirst⟩
      · exact ⟨[], p0, rest, rfl, hh.symm, hd.symm, by simp⟩
      · exact ⟨l1, p, l2, heq, hr, hdate, hfirst⟩
    · rcases range52_low_first (p0 :: rest) ⟨p0.rate, p0.rate, p0.date, p0.date⟩ with
        ⟨hh, hd, hb⟩ | ⟨hlt, l1, p, l2, heq, hr, hdate, hfirst⟩
      · exact ⟨[], p0, rest, rfl, hh.symm, hd.symm, by simp⟩
      · exact ⟨l1, p, l2, heq, hr, hdate, hfirst⟩

/-- The four-point history of the spec's first concrete scenario. -/
def sampleHistory : List RateHistoryPoint :=
  [⟨"2024-01-05", 185⟩, ⟨"2024-03-11", 210⟩, ⟨"2024-06-20", 190⟩, ⟨"2024-09-02", 175⟩]

/-- Witness for C8 at the spec scenario history. -/
theorem calculate52WeekRange_extremes_witness :
    ∃ rr, calculate52WeekRange sampleHistory 195 = some rr ∧
      (∀ q ∈ sampleHistory, rr.low ≤ q.rate ∧ q.rate ≤ rr.high) ∧
      (∃ l1 p l2, sampleHistory = l1 ++ p :: l2 ∧ p.rate = rr.high ∧ p.date = rr.highDate ∧
        ∀ q ∈ l1, q.rate < rr.high) ∧
      (∃ l1 p l2, sampleHistory = l1 ++ p :: l2 ∧ p.rate = rr.low ∧ p.date = rr.lowDate ∧
        ∀ q ∈ l1, rr.low < q.rate) :=
  calculate52WeekRange_extremes sampleHistory 195 (by simp [sampleHistory])

/-- C9: the empty history yields `none`; a non-empty history yields a real
object with `low ≤ high`, whose percentile is
`(current − low)/(high − low) × 100` when `high > low` and exactly 50 when
`high = low` (single-point and flat histories included). -/
theorem calculate52WeekRange_percentile (history : List RateHistoryPoint) (cur : ℚ) :
    (history = [] → calculate52WeekRange history cur = none) ∧
    (history ≠ [] → ∃ rr, calculate52WeekRange history cur = some rr ∧
      rr.low ≤ rr.high ∧
      (rr.low < rr.high → rr.percentile = (cur - rr.low) / (rr.high - rr.low) * 100) ∧
      (rr.low = rr.high → rr.percentile = 50)) := by
  constructor
  · rintro rfl; rfl
  · intro hne
    cases history with
    | nil => exact absurd rfl hne
    | cons p0 rest =>
      rw [calculate52WeekRange_cons]
      refine ⟨_, rfl, ?_, ?_, ?_⟩
      · show ((p0 :: rest).foldl range52Step ⟨p0.rate, p0.rate, p0.date, p0.date⟩).low ≤
          ((p0 :: rest).foldl range52Step ⟨p0.rate, p0.rate, p0.date, p0.date⟩).high
        rw [foldl_range52_low, foldl_range52_high]
        exact le_trans (foldl_min_le _ _) (le_foldl_max _ _)
      · intro hlt
        show (if 0 < ((p0 :: rest).foldl range52Step ⟨p0.rate, p0.rate, p0.date, p0.date⟩).high -
              ((p0 :: rest).foldl range52Step ⟨p0.rate, p0.rate, p0.date, p0.date⟩).low then
            (cur - ((p0 :: rest).foldl range52Step ⟨p0.rate, p0.rate, p0.date, p0.date⟩).low) /
              (((p0 :: rest).foldl range52Step ⟨p0.rate, p0.rate, p0.date, p0.date⟩).high -
                ((p0 :: rest).foldl range52Step ⟨p0.rate, p0.rate, p0.date, p0.date⟩).low) * 100
          else 50) = _
        rw [if_pos (sub_pos.mpr hlt)]
      · intro heq
        have heq2 : ((p0 :: rest).foldl range52Step ⟨p0.rate, p0.rate, p0.date, p0.date⟩).low =
            ((p0 :: rest).foldl range52Step ⟨p0.rate, p0.rate, p0.date, p0.date⟩).high := heq
        show (if 0 < ((p0 :: rest).foldl range52Step ⟨p0.rate, p0.rate, p0.date, p0.date⟩).high -
              ((p0 :: rest).foldl range52Step ⟨p0.rate, p0.rate, p0.date, p0.date⟩).low then
            (cur - ((p0 :: rest).foldl range52Step ⟨p0.rate, p0.rate, p0.date, p0.date⟩).low) /
              (((p0 :: rest).foldl range52Step ⟨p0.rate, p0.rate, p0.date, p0.date⟩).high -
                ((p0 :: rest).foldl range52Step ⟨p0.rate, p0.rate, p0.date, p0.date⟩).low) * 100
          else 50) = 50
        rw [heq2, sub_self]
        norm_num

/-- Witness for C9: the empty history and a single-point history at rate 190
with current rate 195. -/
theorem calculate52WeekRange_percentile_witness :
    calculate52WeekRange [] 195 = none ∧
    (∃ rr, calculate52WeekRange [⟨"2024-01-05", 190⟩] 195 = some rr ∧
      rr.low ≤ rr.high ∧
      (rr.low < rr.high → rr.percentile = (195 - rr.low) / (rr.high - rr.low) * 100) ∧
      (rr.low = rr.high → rr.percentile = 50)) :=
  ⟨(calculate52WeekRange_percentile [] 195).1 rfl,
   (calculate52WeekRange_percentile [⟨"2024-01-05", 190⟩] 195).2 (by simp)⟩

/-- One yearly snapshot of the NISA projection (`src/src/lib/strategy/nisa.ts`,
interface NisaYear): cumulative contributed (exact), cumulative growth and
total value (both rounded in the source). -/
structure NisaYear where
  year : ℕ
  contributed : ℚ
  growth : ℤ
  value : ℤ
deriving DecidableEq

/-- NISA projection result (`src/src/lib/strategy/nisa.ts`, interface
NisaProjection). -/
structure NisaProjection where
  years : List NisaYear
  totalContributed : ℚ
  totalValue : ℤ
  totalGrowth : ℤ
  growthPct : ℚ
deriving DecidableEq

/-- One month of the inner loop of `calculateNisaProjection` (lines 35-38):
growth is applied first, then the contribution is added, while the total
contributed accumulates. State is (totalValue, totalContributed). -/
def nisaMonthStep (monthlyRate monthlyJpy : ℚ) (st : ℚ × ℚ) : ℚ × ℚ :=
  (st.1 * (1 + monthlyRate) + monthlyJpy, st.2 + monthlyJpy)

/-- The outer year loop of `calculateNisaProjection` (lines 33-46): twelve
month steps per year, then one snapshot is appended. -/
def nisaYearLoop (monthlyRate monthlyJpy : ℚ) : ℕ → ℚ × ℚ × List NisaYear
  | 0 => (0, 0, [])
  | y + 1 =>
    let prev := nisaYearLoop monthlyRate monthlyJpy y
    let st := (nisaMonthStep monthlyRate monthlyJpy)^[12] (prev.1, prev.2.1)
    (st.1, st.2,
      prev.2.2 ++ [{ year := y + 1, contributed := st.2,
                     growth := jsRound (st.1 - st.2), value := jsRound st.1 }])

/-- `calculateNisaProjection` from `src/src/lib/strategy/nisa.ts`
(lines 22-58). -/
def calculateNisaProjection (monthlyJpy annualReturnPct : ℚ) (years : ℕ) :
    NisaProjection :=
  let monthlyRate := annualReturnPct / 100 / 12
  let res := nisaYearLoop monthlyRate monthlyJpy years
  let totalGrowth := jsRound (res.1 - res.2.1)
  let growthPct := if 0 < res.2.1 then (totalGrowth : ℚ) / res.2.1 * 100 else 0
  { years := res.2.2, totalContributed := res.2.1, totalValue := jsRound res.1,
    totalGrowth := totalGrowth, growthPct := growthPct }

lemma jsRound_intCast (n : ℤ) : jsRound (n : ℚ) = n := by
  rw [jsRound, add_comm, Int.floor_add_int]
  norm_num

lemma pairwise_lt_map_range (f : ℕ → ℚ) (hf : ∀ a b, a < b → f a < f b) (n : ℕ) :
    List.Pairwise (· < ·) ((List.range n).map f) := by
  rw [List.pairwise_map]
  exact List.Pairwise.imp (fun h => hf _ _ h) (List.pairwise_lt_range n)

lemma nisaMonthStep_iterate_contributed (mr c : ℚ) (n : ℕ) (st : ℚ × ℚ) :
    ((nisaMonthStep mr c)^[n] st).2 = st.2 + n * c := by
  induction n generalizing st with
  | zero => simp
  | succ n ih =>
    rw [Function.iterate_succ_apply, ih]
    simp only [nisaMonthStep]
    push_cast
    ring

lemma nisaMonthStep_iterate_zero_rate (c : ℚ) (n : ℕ) (st : ℚ × ℚ) :
    ((nisaMonthStep 0 c)^[n] st).1 - ((nisaMonthStep 0 c)^[n] st).2 = st.1 - st.2 := by
  induction n generalizing st with
  | zero => simp
  | succ n ih =>
    rw [Function.iterate_succ_apply, ih]
    simp only [nisaMonthStep]
    ring

lemma nisaYearLoop_contributed (mr c : ℚ) (y : ℕ) :
    (nisaYearLoop mr c y).2.1 = 12 * (y : ℚ) * c := by
  induction y with
  | zero => simp [nisaYearLoop]
  | succ y ih =>
    simp only [nisaYearLoop]
    rw [nisaMonthStep_iterate_contributed, ih]
    push_cast
    ring

lemma nisaYearLoop_years_contributed (mr c : ℚ) (y : ℕ) :
    (nisaYearLoop mr c y).2.2.map NisaYear.contributed =
      (List.range y).map (fun i : ℕ => 12 * ((i : ℚ) + 1) * c) := by
  induction y with
  | zero => rfl
  | succ y ih =>
    have hcontrib : ((nisaMonthStep mr c)^[12]
        ((nisaYearLoop mr c y).1, (nisaYearLoop mr c y).2.1)).2 =
          12 * ((y : ℚ) + 1) * c := by
      rw [nisaMonthStep_iterate_contributed, nisaYearLoop_contributed]
      push_cast
      ring
    simp only [nisaYearLoop, List.range_succ, List.map_append, ih, List.map_cons,
      List.map_nil, hcontrib]

lemma nisaYearLoop_zero_rate_value (c : ℚ) (y : ℕ) :
    (nisaYearLoop 0 c y).1 = (nisaYearLoop 0 c y).2.1 := by
  induction y with
  | zero => rfl
  | succ y ih =>
    simp only [nisaYearLoop]
    have hdiff := nisaMonthStep_iterate_zero_rate c 12
      ((nisaYearLoop 0 c y).1, (nisaYearLoop 0 c y).2.1)
    have h0 : (nisaYearLoop 0 c y).1 - (nisaYearLoop 0 c y).2.1 = 0 := by
      rw [ih]; ring
    linarith

lemma nisaYearLoop_zero_rate_growth (c : ℚ) (y : ℕ) :
    ∀ e ∈ (nisaYearLoop 0 c y).2.2, e.growth = 0 := by
  induction y with
  | zero => simp [nisaYearLoop]
  | succ y ih =>
    simp only [nisaYearLoop]
    intro e he
    rcases List.mem_append.mp he with h | h
    · exact ih e h
    · have he2 := List.mem_singleton.mp h
      subst he2
      have hdiff := nisaMonthStep_iterate_zero_rate c 12
        ((nisaYearLoop 0 c y).1, (nisaYearLoop 0 c y).2.1)
      have h0 : (nisaYearLoop 0 c y).1 - (nisaYearLoop 0 c y).2.1 = 0 := by
        rw [nisaYearLoop_zero_rate_value]; ring
      show jsRound _ = 0
      rw [show ((nisaMonthStep 0 c)^[12]
          ((nisaYearLoop 0 c y).1, (nisaYearLoop 0 c y).2.1)).1 -
          ((nisaMonthStep 0 c)^[12]
          ((nisaYearLoop 0 c y).1, (nisaYearLoop 0 c y).2.1)).2 = 0 by linarith]
      rw [show ((0 : ℚ)) = ((0 : ℤ) : ℚ) by norm_num, jsRound_intCast]

/-- C10: for every positive integer monthly JPY contribution the cumulative
contributed values in the yearly snapshots are strictly increasing
year-over-year; and with a zero annual return percentage the (rounded) total
value equals the total contributed exactly and every yearly growth entry is 0.
Contributions are whole yen, as the data model stores JPY in integer major
units. -/
theorem calculateNisaProjection_contributed_zero_return (m : ℤ) (r : ℚ)
    (years : ℕ) (hm : 0 < m) :
    List.Pairwise (· < ·)
      (((calculateNisaProjection (m : ℚ) r years).years).map NisaYear.contributed) ∧
    (r = 0 →
      ((calculateNisaProjection (m : ℚ) r years).totalValue : ℚ) =
          (calculateNisaProjection (m : ℚ) r years).totalContributed ∧
      ∀ e ∈ (calculateNisaProjection (m : ℚ) r years).years, e.growth = 0) := by
  constructor
  · show List.Pairwise (· < ·)
      ((nisaYearLoop (r / 100 / 12) (m : ℚ) years).2.2.map NisaYear.contributed)
    rw [nisaYearLoop_years_contributed]
    refine pairwise_lt_map_range _ ?_ years
    intro a b hab
    have hc : (0 : ℚ) < (m : ℚ) := by exact_mod_cast hm
    have hab2 : (a : ℚ) < (b : ℚ) := by exact_mod_cast hab
    nlinarith
  · rintro rfl
    have hmr : (0 : ℚ) / 100 / 12 = 0 := by norm_num
    refine ⟨?_, ?_⟩
    · show ((jsRound (nisaYearLoop ((0 : ℚ) / 100 / 12) (m : ℚ) years).1 : ℤ) : ℚ) =
        (nisaYearLoop ((0 : ℚ) / 100 / 12) (m : ℚ) years).2.1
      rw [hmr, nisaYearLoop_zero_rate_value, nisaYearLoop_contributed]
      rw [show (12 * (years : ℚ) * (m : ℚ)) = ((12 * years * m : ℤ) : ℚ) by push_cast; ring]
      rw [jsRound_intCast]
    · show ∀ e ∈ (nisaYearLoop ((0 : ℚ) / 100 / 12) (m : ℚ) years).2.2, e.growth = 0
      rw [hmr]
      exact nisaYearLoop_zero_rate_growth _ _

/-- Witness for C10 at the spec scenario: 100000 yen per month, 0% return,
one year: the rounded total value equals the total contributed exactly. -/
theorem calculateNisaProjection_witness :
    ((calculateNisaProjection ((100000 : ℤ) : ℚ) 0 1).totalValue : ℚ) =
      (calculateNisaProjection ((100000 : ℤ) : ℚ) 0 1).totalContributed :=
  ((calculateNisaProjection_contributed_zero_return 100000 0 1 (by norm_num)).2 rfl).1
